import Mathlib

set_option autoImplicit false

/-
Shallow embedding of the Orion pattern-mining / tool-synthesis pipeline
(src/gepa.py, class GEPA) and the conversational dispatcher
(src/amans_cli_orion.py, class IntelligentCLI).

Modelling conventions:
* The language-model collaborator is opaque (spec sections 1 and 6): each
  call site takes the model's reply as an oracle argument.  A model call
  that raises is the `Except.error` case; the structured-output decoding
  pipeline (absent tool_calls / json.loads failure / parsed payload) is
  the `StructuredOut` type below.
* Python dicts of JSON arguments are association lists `List (String × Value)`;
  a JSON `null` is `Value.null`, so the source's
  `{k: v for k, v in args.items() if v is not None}` is `dropNulls`.
* The flat-file data accessors of src/tools.py are external collaborators
  (spec section 1: out of scope, specified at the boundary); a tool
  implementation is an oracle `ToolImpl`.  Python falsy results, which the
  source renders as "No results found", are `none`.
* Wall-clock fields (`created_at`, `timestamp`) are dropped: they are
  `datetime.now()` reads that no claim mentions.
-/

/-- A JSON-like argument value.  Only the null / non-null distinction and
equality are ever inspected by the embedded code. -/
inductive Value where
  | str (s : String)
  | num (n : Int)
  | boolean (b : Bool)
  | null
  deriving DecidableEq, Repr

/-- `{k: v for k, v in args.items() if v is not None}`
(src/amans_cli_orion.py line 343, src/gepa.py line 483). -/
def dropNulls (args : List (String × Value)) : List (String × Value) :=
  args.filter (fun p => match p.2 with | Value.null => false | _ => true)

/-- Python's `str.startswith`, on the character list (structural, so it
evaluates by kernel reduction). -/
def strStartsWith (s p : String) : Bool := p.data.isPrefixOf s.data

/-- The 28 names of the fixed base tool catalog.  This is both the key set
of `TOOL_MAP` (src/amans_cli_orion.py lines 11-40, src/gepa.py lines
428-457) and the name list of the schema list `tools` in
src/tool_usage.py, in source order. -/
def toolMapNames : List String :=
  ["search_code_issues", "get_issue_by_id", "get_issues_by_location",
   "search_emails", "get_email_by_id", "get_emails_by_sender",
   "search_repo_files", "get_file_by_path", "search_dependencies",
   "search_local_files", "get_local_file_by_path", "get_directory_info",
   "search_restaurants", "get_restaurant_by_id", "find_restaurants_by_distance",
   "search_system_logs", "get_metrics_by_service", "get_logs_by_timeframe",
   "search_transactions", "get_transaction_by_id", "get_expenses_by_timeframe",
   "search_calendar_events", "get_calendar_by_date", "check_time_availability",
   "get_calendar_event_by_id", "get_events_by_timeframe", "create_calendar_event",
   "find_free_time_slots"]

/-- A data-accessor collaborator: tool name and (already null-filtered or
not, per call site) argument bag to either a raised exception
(`Except.error`), a falsy Python result (`none`, rendered
"No results found"), or a JSON-dumped payload string. -/
abbrev ToolImpl := String → List (String × Value) → Except String (Option String)

/-- `json.dumps(result, indent=2) if result else "No results found"`
(src/amans_cli_orion.py line 358). -/
def renderResult : Option String → String
  | some s => s
  | none => "No results found"

instance exceptDecEq {ε α : Type} [DecidableEq ε] [DecidableEq α] :
    DecidableEq (Except ε α)
  | Except.ok a, Except.ok b =>
      if h : a = b then isTrue (by rw [h])
      else isFalse (by intro he; cases he; exact h rfl)
  | Except.ok _, Except.error _ => isFalse (by intro h; cases h)
  | Except.error _, Except.ok _ => isFalse (by intro h; cases h)
  | Except.error e, Except.error f =>
      if h : e = f then isTrue (by rw [h])
      else isFalse (by intro he; cases he; exact h rfl)

/-- A tool call as requested by the model: `tool_call.function.arguments`
arrives as a JSON string, so its parse (`json.loads`) is a collaborator
outcome `Except String (List (String × Value))`. -/
structure RawToolCall where
  id : String
  name : String
  argsParse : Except String (List (String × Value))
  deriving DecidableEq, Repr

/-- One entry of the `tool_results` list built by `execute_tools`
(src/amans_cli_orion.py lines 354-359 and siblings). -/
structure ToolMsg where
  tool_call_id : String
  name : String
  content : String
  deriving DecidableEq, Repr

/-- One entry of the `executed_tools` bookkeeping list (`tool_info` in the
source, the spec's ToolExecutionRecord). -/
structure ToolInfo where
  name : String
  args : List (String × Value)
  success : Bool
  error : Option String
  deriving DecidableEq, Repr

/-- The body of `execute_tools`' per-call `try` block
(src/amans_cli_orion.py lines 341-398), for a non-trigger call whose
arguments already parsed: registry lookup, null filtering before
dispatch, structured per-call error on lookup failure or on a raising
implementation. -/
def execute_tool_call (impl : ToolImpl) (id name : String)
    (args : List (String × Value)) : ToolMsg × ToolInfo :=
  if toolMapNames.contains name then
    match impl name (dropNulls args) with
    | Except.ok r =>
        (⟨id, name, renderResult r⟩, ⟨name, dropNulls args, true, none⟩)
    | Except.error e =>
        (⟨id, name, "Error executing " ++ name ++ ": " ++ e⟩,
         ⟨name, args, false, some e⟩)
  else
    (⟨id, name, "Error: Tool " ++ name ++ " not found"⟩,
     ⟨name, args, false, some "Tool not found"⟩)

/-- `IntelligentCLI.execute_tools` (src/amans_cli_orion.py lines 325-406).
Returns the `(tool_results, executed_tools)` pair.  Note the source calls
`json.loads(tool_call.function.arguments)` on line 333, before the
trigger check and OUTSIDE the per-call `try` that starts at line 341, so
an argument string that fails to parse raises out of the whole batch:
that is the `Except.error` short-circuit of the first `do` bind. -/
def execute_tools (impl : ToolImpl) :
    List RawToolCall → Except String (List ToolMsg × List ToolInfo)
  | [] => Except.ok ([], [])
  | tc :: rest =>
      match tc.argsParse with
      | Except.error e => Except.error e
      | Except.ok args =>
          if strStartsWith tc.name "trigger_" then
            execute_tools impl rest
          else
            match execute_tools impl rest with
            | Except.error e => Except.error e
            | Except.ok r =>
                let mi := execute_tool_call impl tc.id tc.name args
                Except.ok (mi.1 :: r.1, mi.2 :: r.2)

/-- The calls of a batch that actually reach the per-call executor: the
non-trigger calls, paired with their parsed argument bags. -/
def dispatchable (calls : List RawToolCall) :
    List (RawToolCall × List (String × Value)) :=
  calls.filterMap (fun tc =>
    match tc.argsParse with
    | Except.ok a =>
        if strStartsWith tc.name "trigger_" then none else some (tc, a)
    | Except.error _ => none)

/-- Base tool schema entry; the description text and JSON parameter
schema of src/tool_usage.py are opaque payloads no claim inspects, so
only the name is carried. -/
structure FunctionSchema where
  name : String
  deriving DecidableEq, Repr

/-- The schema list `tools` of src/tool_usage.py (28 entries). -/
def base_tools : List FunctionSchema :=
  toolMapNames.map FunctionSchema.mk

/-- A learned ToolDefinition as stored in new_tools.json (spec section 3);
`created_at` (a wall-clock read) is dropped. -/
structure ToolDefRec where
  tool_name : String
  objective : String
  trigger_patterns : List String
  optimized_system_prompt : String
  tool_sequence : List String
  max_internal_turns : Int
  source_workflow_complexity : Int
  deriving DecidableEq, Repr

/-- The learned-tool store: the JSON object of new_tools.json as an
insertion-ordered key/value list (Python dict). -/
abbrev Store := List (String × ToolDefRec)

/-- `self.existing_tools[name] = tool_def` — dict upsert. -/
def storeInsert (store : Store) (k : String) (v : ToolDefRec) : Store :=
  if store.any (fun p => p.1 == k) then
    store.map (fun p => if p.1 == k then (k, v) else p)
  else
    store ++ [(k, v)]

/-- `IntelligentCLI.create_intelligent_tool_functions`
(src/amans_cli_orion.py lines 68-104): one synthetic schema per learned
tool, named `"trigger_" + tool_name`. -/
def create_intelligent_tool_functions (store : Store) : List FunctionSchema :=
  store.map (fun p => ⟨"trigger_" ++ p.1⟩)

/-- `IntelligentCLI.get_combined_tools` (src/amans_cli_orion.py lines
106-111): `tools.copy()` extended with the synthetic trigger schemas. -/
def get_combined_tools (store : Store) : List FunctionSchema :=
  base_tools ++ create_intelligent_tool_functions store

/-
The bounded sub-loop of a learned tool:
`GEPA.execute_intelligent_tool` (src/gepa.py lines 417-513); the loop of
`IntelligentCLI.execute_intelligent_tool` (src/amans_cli_orion.py lines
180-292) has the identical control flow (same two returning branches
inside `for turn in range(max_internal_turns)`, same sentinel after the
loop, same outer `try`).
-/

/-- A message on the sub-loop's `conversation` list. -/
inductive LoopMsg where
  | system (content : String)
  | user (content : String)
  | assistant (content : String) (toolCalls : List RawToolCall)
  | toolResult (callId : String) (name : String) (content : String)
  deriving DecidableEq, Repr

/-- One reply of the model when invoked with the tool schema
(`tools=tools, parallel_tool_calls=True`). -/
structure ModelOut where
  content : String
  toolCalls : List RawToolCall
  deriving DecidableEq, Repr

/-- Which `return` statement of `execute_intelligent_tool` produced the
result: a model answer, the post-loop sentinel, or the `except` handler. -/
inductive Outcome where
  | responded (content : String)
  | exhausted
  | failed (err : String)
  deriving DecidableEq, Repr

/-- The strings those code paths return (src/gepa.py lines 506-513). -/
def renderOutcome : Outcome → String
  | Outcome.responded s => s
  | Outcome.exhausted => "❌ Max turns reached without completion"
  | Outcome.failed e => "❌ Tool execution failed: " ++ e

/-- The system instruction appended for the wrap-up model call
(src/gepa.py line 503). -/
def finalInstruction : String :=
  "Now provide your final comprehensive response using all the tool data."

/-- The inline batch execution of src/gepa.py lines 477-499: `json.loads`
and the `TOOL_MAP[func_name](**filtered_args)` call sit inside the outer
`try`, so any raise (`Except.error`) aborts the whole sub-loop into the
`except` handler; an unknown name becomes an error-content tool message
without raising. -/
def run_tool_batch (impl : ToolImpl) :
    List RawToolCall → Except String (List LoopMsg)
  | [] => Except.ok []
  | tc :: rest => do
      let args ← tc.argsParse
      if toolMapNames.contains tc.name then
        let r ← impl tc.name (dropNulls args)
        let others ← run_tool_batch impl rest
        Except.ok (LoopMsg.toolResult tc.id tc.name (renderResult r) :: others)
      else
        let others ← run_tool_batch impl rest
        Except.ok (LoopMsg.toolResult tc.id tc.name
          ("Error: Tool " ++ tc.name ++ " not found") :: others)

/-- Observable facts of one sub-loop run: the returning code path, how
many tool-call-permitting model invocations were issued, and how many
tool batches were started. -/
structure RunStats where
  outcome : Outcome
  toolModelCalls : Nat
  toolRounds : Nat
  deriving DecidableEq, Repr

/-- `for turn in range(max_internal_turns): ...` (src/gepa.py lines
465-510).  `fuel` is the number of remaining loop iterations; falling
off the loop returns the exhaustion sentinel.  Both branches of the body
end in `return`, which is why no arm recurses: the source's loop body
exits the function on every path. -/
def execute_tool_rounds (toolModel : List LoopMsg → Except String ModelOut)
    (finalModel : List LoopMsg → Except String String) (impl : ToolImpl) :
    Nat → List LoopMsg → Nat → Nat → RunStats
  | 0, _, calls, rounds => ⟨Outcome.exhausted, calls, rounds⟩
  | Nat.succ _, conv, calls, rounds =>
      match toolModel conv with
      | Except.error e => ⟨Outcome.failed e, calls + 1, rounds⟩
      | Except.ok am =>
          if am.toolCalls.isEmpty then
            ⟨Outcome.responded am.content, calls + 1, rounds⟩
          else
            match run_tool_batch impl am.toolCalls with
            | Except.error e => ⟨Outcome.failed e, calls + 1, rounds + 1⟩
            | Except.ok results =>
                match finalModel ((conv ++
                    [LoopMsg.assistant am.content am.toolCalls] ++ results) ++
                    [LoopMsg.system finalInstruction]) with
                | Except.error e => ⟨Outcome.failed e, calls + 1, rounds + 1⟩
                | Except.ok content =>
                    ⟨Outcome.responded content, calls + 1, rounds + 1⟩

/-- The sub-loop run for one learned tool: conversation seeded with the
tool's fixed system prompt and the user message (src/gepa.py lines
459-462); `range` of a non-positive `max_internal_turns` is empty, hence
`Int.toNat`. -/
def run_intelligent_tool (td : ToolDefRec)
    (toolModel : List LoopMsg → Except String ModelOut)
    (finalModel : List LoopMsg → Except String String) (impl : ToolImpl)
    (user_message : String) : RunStats :=
  execute_tool_rounds toolModel finalModel impl td.max_internal_turns.toNat
    [LoopMsg.system td.optimized_system_prompt, LoopMsg.user user_message] 0 0

/-- `GEPA.execute_intelligent_tool` top level: store lookup, then the
bounded loop, rendered to the returned string. -/
def execute_intelligent_tool (store : Store)
    (toolModel : List LoopMsg → Except String ModelOut)
    (finalModel : List LoopMsg → Except String String) (impl : ToolImpl)
    (user_message tool_name : String) : String :=
  match store.lookup tool_name with
  | none => "❌ Tool '" ++ tool_name ++ "' not found"
  | some td =>
      renderOutcome
        (run_intelligent_tool td toolModel finalModel impl user_message).outcome

/-
The PatternMiner (class GEPA, src/gepa.py).  Each model call site reads
`response.choices[0].message.tool_calls`, then runs `json.loads` on the
first call's arguments inside a `try` whose `except` returns the
call-site-specific fallback.  `StructuredOut` enumerates those decoding
outcomes; the model call itself sits OUTSIDE every `try`, so a raising
call is the surrounding `Except.error`.
-/

/-- Decoding outcome of a structured model reply: no tool call in the
reply, `json.loads` failure, or the parsed payload. -/
inductive StructuredOut (α : Type) where
  | noCalls
  | badJson
  | parsed (a : α)
  deriving DecidableEq, Repr

/-- A saved `assistant_tool_request` entry
(src/amans_cli_orion.py lines 474-480). -/
structure SavedToolCall where
  function : String
  arguments : List (String × Value)
  call_id : String
  deriving DecidableEq, Repr

/-- One turn of the persisted thread format (spec section 6), the shape
`save_thread` writes and the miner reads. -/
inductive TurnRec where
  | user_input (turn : Int) (content : String)
  | assistant_response (turn : Int) (content : String)
  | assistant_tool_request (turn : Int) (content : String)
      (tool_calls : List SavedToolCall)
  | tool_result (turn : Int) (tool_name : String) (tool_call_id : String)
      (content : String) (success : Bool)
  deriving DecidableEq, Repr

/-- The `turn` field of a saved turn. -/
def TurnRec.turn : TurnRec → Int
  | TurnRec.user_input n _ => n
  | TurnRec.assistant_response n _ => n
  | TurnRec.assistant_tool_request n _ _ => n
  | TurnRec.tool_result n _ _ _ _ => n

/-- The `content` field of a saved turn (`t.get("content", "")`; every
turn type written by `save_thread` carries one). -/
def TurnRec.content : TurnRec → String
  | TurnRec.user_input _ c => c
  | TurnRec.assistant_response _ c => c
  | TurnRec.assistant_tool_request _ c _ => c
  | TurnRec.tool_result _ _ _ c _ => c

/-- One segment as returned by the model's `analyze_conversation_segments`
call.  The schema requires the first five fields; the turn-count fields
are optional, and `is_complex_workflow` is read with
`s.get("is_complex_workflow", False)`, hence `Option`. -/
structure Segment where
  segment_id : Int
  turn_id_for_split_start : Int
  turn_id_for_split_end : Int
  user_objective_description : String
  is_complex_workflow : Option Bool
  user_turns_in_segment : Option Int
  assistant_turns_in_segment : Option Int
  deriving DecidableEq, Repr

/-- The decoded arguments of `analyze_conversation_segments`
(`args.get("segments", [])`: a missing key is the empty list). -/
structure SegArgs where
  segments : List Segment
  deriving DecidableEq, Repr

/-- The transcript rendering of src/gepa.py lines 171-179 (`tool_result`
turns are not rendered).  This is the only part of the thread the
segmentation model sees. -/
def turnLine : TurnRec → String
  | TurnRec.user_input n c => "Turn " ++ toString n ++ " - USER: " ++ c ++ "\n"
  | TurnRec.assistant_response n c =>
      "Turn " ++ toString n ++ " - ASSISTANT: " ++ c ++ "\n"
  | TurnRec.assistant_tool_request n _ tcs =>
      "Turn " ++ toString n ++ " - ASSISTANT_TOOLS: " ++
        toString (tcs.map (fun tc => tc.function)) ++ "\n"
  | TurnRec.tool_result _ _ _ _ _ => ""

def turnsText (turns : List TurnRec) : String :=
  String.join (turns.map turnLine)

/-- `GEPA.segment_conversation` (src/gepa.py lines 170-219).  The model
call (line 181) is outside any `try`: a raise propagates.  The `try` of
lines 214-218 covers only the decode, whose failures return `[]`; absent
tool calls also return `[]` (line 219).  The parsed segments are
returned verbatim — no bounds, ordering, or overlap validation. -/
def segment_conversation (thread : List TurnRec)
    (model : String → Except String (StructuredOut SegArgs)) :
    Except String (List Segment) :=
  match model (turnsText thread) with
  | Except.error e => Except.error e
  | Except.ok StructuredOut.noCalls => Except.ok []
  | Except.ok StructuredOut.badJson => Except.ok []
  | Except.ok (StructuredOut.parsed a) => Except.ok a.segments

/-- The decoded `workflow_analysis` payload.  Fields are read with
`.get`, hence `Option`; the decode-failure fallback `{}` is
`emptyWorkflow` below. -/
structure Workflow where
  tools_used_list : List String
  optimization_potential : Option String
  workflow_complexity_score : Option Int
  user_had_to_guide_process : Option Bool
  context_dependencies : List (String × String × String)
  deriving DecidableEq, Repr

def emptyWorkflow : Workflow := ⟨[], none, none, none, []⟩

/-- `GEPA.analyze_segment_workflow` (src/gepa.py lines 221-287), model
call at line 246 outside any `try`; decode failure or absent tool calls
return `{}`. -/
def analyze_segment_workflow
    (resp : Except String (StructuredOut Workflow)) : Except String Workflow :=
  match resp with
  | Except.error e => Except.error e
  | Except.ok StructuredOut.noCalls => Except.ok emptyWorkflow
  | Except.ok StructuredOut.badJson => Except.ok emptyWorkflow
  | Except.ok (StructuredOut.parsed w) => Except.ok w

/-- The decoded `tool_evaluation` payload. -/
structure EvalOut where
  new_tool_needed : Bool
  reasoning : String
  deriving DecidableEq, Repr

/-- `GEPA.check_existing_tool_coverage` (src/gepa.py lines 289-343).
With an empty store it returns `new_tool_needed=True` before any model
call (lines 290-291).  Otherwise the verdict is whatever the model's
decoded `tool_evaluation` says (the decision criteria live only in the
prompt text); decode failure or absent tool calls return the
`"Analysis failed"` refusal; a raising model call propagates.
`workflow_analysis` is consumed only by the prompt text. -/
def check_existing_tool_coverage (store : Store) (workflow_analysis : Workflow)
    (resp : Except String (StructuredOut EvalOut)) : Except String EvalOut :=
  if store.isEmpty then
    Except.ok ⟨true, "No existing tools available"⟩
  else
    match resp with
    | Except.error e => Except.error e
    | Except.ok StructuredOut.noCalls => Except.ok ⟨false, "Analysis failed"⟩
    | Except.ok StructuredOut.badJson => Except.ok ⟨false, "Analysis failed"⟩
    | Except.ok (StructuredOut.parsed ev) => Except.ok ev

/-- `GEPA.create_optimized_tool` (src/gepa.py lines 345-415): the decoded
`new_tool_description` is returned with `source_workflow_complexity`
stamped on (`created_at`, a wall-clock read, is dropped here); decode
failure or absent tool calls return `None`; a raising model call
propagates.  No post-hoc validation of any synthesis constraint is
performed: the payload is accepted as the model produced it. -/
def create_optimized_tool (workflow_analysis : Workflow)
    (resp : Except String (StructuredOut ToolDefRec)) :
    Except String (Option ToolDefRec) :=
  match resp with
  | Except.error e => Except.error e
  | Except.ok StructuredOut.noCalls => Except.ok none
  | Except.ok StructuredOut.badJson => Except.ok none
  | Except.ok (StructuredOut.parsed td) =>
      Except.ok (some { td with
        source_workflow_complexity :=
          workflow_analysis.workflow_complexity_score.getD 0 })

/-- Line 522 of src/gepa.py: the synthesis-candidate list of
`process_thread` keeps exactly the segments whose
`is_complex_workflow` decodes to true. -/
def filtered_segments (segments : List Segment) : List Segment :=
  segments.filter (fun s => s.is_complex_workflow.getD false)

/-- The model replies consumed by one `process_thread` pass: the
segmentation reply (a function of the rendered transcript) and, for the
i-th candidate segment, the analysis / coverage / synthesis replies;
`saveWrite` is the `save_tools` file write. -/
structure MinerOracles where
  segModel : String → Except String (StructuredOut SegArgs)
  analyzeResp : Nat → Except String (StructuredOut Workflow)
  coverResp : Nat → Except String (StructuredOut EvalOut)
  createResp : Nat → Except String (StructuredOut ToolDefRec)
  saveWrite : Store → Except String Unit

/-- The per-segment loop of `process_thread` (src/gepa.py lines 526-548):
gate on optimization potential, coverage check against the store as
mutated so far, synthesis, persist-by-upsert when the returned tool has
a truthy `tool_name`.  Every collaborator raise propagates. -/
def process_segments (o : MinerOracles) :
    Nat → Store → List Segment → Except String Store
  | _, store, [] => Except.ok store
  | i, store, _s :: rest => do
      let workflow ← analyze_segment_workflow (o.analyzeResp i)
      if workflow.optimization_potential = some "HIGH" ∨
          workflow.optimization_potential = some "MEDIUM" then
        let evaluation ← check_existing_tool_coverage store workflow (o.coverResp i)
        if evaluation.new_tool_needed then
          let tool_def ← create_optimized_tool workflow (o.createResp i)
          match tool_def with
          | some td =>
              if td.tool_name ≠ "" then
                process_segments o (i + 1) (storeInsert store td.tool_name td) rest
              else
                process_segments o (i + 1) store rest
          | none => process_segments o (i + 1) store rest
        else
          process_segments o (i + 1) store rest
      else
        process_segments o (i + 1) store rest

/-- `GEPA.process_thread` (src/gepa.py lines 515-551): read the thread
file (raises propagate), segment, filter to complex workflows, run the
per-segment loop, flush the store with `save_tools` (raises propagate).
Returns the store the pass left behind. -/
def process_thread (initStore : Store)
    (threadRead : Except String (List TurnRec)) (o : MinerOracles) :
    Except String Store := do
  let thread ← threadRead
  let segments ← segment_conversation thread o.segModel
  let store ← process_segments o 0 initStore (filtered_segments segments)
  let _ ← o.saveWrite store
  Except.ok store

/-
ThreadStore serialization: `IntelligentCLI.save_thread`
(src/amans_cli_orion.py lines 442-534).
-/

/-- A message on the CLI's `conversation` list as `save_thread` receives
it.  The source branches on dict-vs-client-object: a dict assistant
message never has a `tool_calls` attribute, so it always serializes as
`assistant_response`; a client-object assistant message carries a
(possibly empty) tool-call list.  Tool-call argument strings are taken
as already parsed here (`json.loads` at line 477 sits outside any `try`;
no claim exercises that path). -/
inductive ChatMsg where
  | user (content : String)
  | assistantObj (content : String) (tool_calls : List SavedToolCall)
  | assistantDict (content : String)
  | tool (name : String) (tool_call_id : String) (content : String)
  deriving DecidableEq, Repr

/-- The turn-building loop of `save_thread` (lines 451-500): one numbered
turn per message, `success` of a `tool_result` derived as "content does
not start with Error" (line 498). -/
def buildTurns : List ChatMsg → Int → List TurnRec
  | [], _ => []
  | ChatMsg.user c :: rest, n =>
      TurnRec.user_input n c :: buildTurns rest (n + 1)
  | ChatMsg.assistantObj c tcs :: rest, n =>
      if tcs.isEmpty then
        TurnRec.assistant_response n c :: buildTurns rest (n + 1)
      else
        TurnRec.assistant_tool_request n c tcs :: buildTurns rest (n + 1)
  | ChatMsg.assistantDict c :: rest, n =>
      TurnRec.assistant_response n c :: buildTurns rest (n + 1)
  | ChatMsg.tool nm cid c :: rest, n =>
      TurnRec.tool_result n nm cid c (!(strStartsWith c "Error")) ::
        buildTurns rest (n + 1)

def TurnRec.isUserInput : TurnRec → Bool
  | TurnRec.user_input _ _ => true
  | _ => false

def TurnRec.isToolResult : TurnRec → Bool
  | TurnRec.tool_result _ _ _ _ _ => true
  | _ => false

/-- The summary metadata of the persisted thread (lines 512-525).  The
session-tool-summary fields and the wall-clock `thread_id`/`timestamp`
are dropped: no claim mentions them.  Note line 520 derives `success`
from the content of EVERY turn, not only tool results. -/
structure ThreadMeta where
  total_turns : Nat
  user_turns : Nat
  tool_calls : Nat
  success : Bool
  deriving DecidableEq, Repr

structure ThreadData where
  turns : List TurnRec
  metadata : ThreadMeta
  deriving DecidableEq, Repr

/-- `IntelligentCLI.save_thread` (src/amans_cli_orion.py lines 442-534),
as the persisted record it writes. -/
def save_thread (conversation : List ChatMsg) : ThreadData :=
  let turns := buildTurns conversation 1
  { turns := turns
    metadata :=
      { total_turns := turns.length
        user_turns := (turns.filter TurnRec.isUserInput).length
        tool_calls := (turns.filter TurnRec.isToolResult).length
        success := !(turns.any (fun t => strStartsWith t.content "Error")) } }

/-
Concrete collaborator behaviors and inputs used to evaluate the code at
specific points.
-/

/-- A data-accessor behavior for the restaurant scenario: the
`search_restaurants` accessor returns a payload, everything else
raises. -/
def scenD_impl : ToolImpl := fun n _ =>
  if n = "search_restaurants" then Except.ok (some "restaurant records payload")
  else Except.error "unexpected accessor"

/-- The batch of spec scenario D: `search_restaurants` with a null
`area` argument plus an unknown tool. -/
def scenD_calls : List RawToolCall :=
  [⟨"call_1", "search_restaurants",
      Except.ok [("cuisine", Value.str "italian"), ("area", Value.null)]⟩,
   ⟨"call_2", "unknown_tool", Except.ok []⟩]

/-- A batch whose second call carries an argument string that
`json.loads` rejects. -/
def c5x_calls : List RawToolCall :=
  [⟨"call_1", "search_restaurants", Except.ok [("cuisine", Value.str "thai")]⟩,
   ⟨"call_2", "search_emails",
      Except.error "Unterminated string starting at char 7"⟩]

/-- A model that never stops requesting tools: every tool-call-permitting
invocation requests one `search_emails` call. -/
def c4_toolModel : List LoopMsg → Except String ModelOut := fun _ =>
  Except.ok ⟨"", [⟨"call_7", "search_emails",
    Except.ok [("query", Value.str "status update")]⟩]⟩

def c4_finalModel : List LoopMsg → Except String String := fun _ =>
  Except.ok "Summary of the gathered email data."

def c4_impl : ToolImpl := fun _ _ => Except.ok (some "email records")

/-- A learned tool with `max_internal_turns = 1`. -/
def c4_tool : ToolDefRec :=
  ⟨"email_context_aggregator", "Gather email context for a request",
   ["status", "email"], "You gather email context.", ["search_emails"], 1, 7⟩

/-- A learned tool with `max_internal_turns = 2`, and a model that
answers directly without tool calls. -/
def c10_tool : ToolDefRec :=
  ⟨"multi_source_investigator", "Aggregate context from several sources",
   ["investigate"], "You investigate across sources.",
   ["search_code_issues", "search_emails"], 2, 8⟩

def c10_toolModel : List LoopMsg → Except String ModelOut := fun _ =>
  Except.ok ⟨"Here is the direct answer.", []⟩

def c10_finalModel : List LoopMsg → Except String String := fun _ =>
  Except.ok "unused"

def c10_impl : ToolImpl := fun _ _ => Except.ok none

/-- Spec scenario A's transcript: availability check, then the mutating
`create_calendar_event`, then confirmation. -/
def c1_thread : List TurnRec :=
  [TurnRec.user_input 1 "book lunch with Sam Tuesday",
   TurnRec.assistant_tool_request 2 ""
     [⟨"check_time_availability",
        [("start_time", Value.str "2025-01-14T12:00"),
         ("end_time", Value.str "2025-01-14T13:00")], "call_1"⟩],
   TurnRec.tool_result 3 "check_time_availability" "call_1" "available" true,
   TurnRec.assistant_tool_request 4 ""
     [⟨"create_calendar_event", [("title", Value.str "Lunch")], "call_2"⟩],
   TurnRec.tool_result 5 "create_calendar_event" "call_2" "created" true,
   TurnRec.assistant_response 6 "Booked."]

def c1_segment : Segment :=
  ⟨1, 1, 6, "Schedule lunch with a contact", some true, some 1, some 2⟩

/-- A synthesized candidate whose `tool_sequence` contains the mutating
tool — exactly what the synthesis constraints forbid. -/
def c1_badTool : ToolDefRec :=
  ⟨"intelligent_scheduling_assistant", "Coordinate scheduling workflows",
   ["schedule", "meeting"], "You coordinate scheduling.",
   ["check_time_availability", "create_calendar_event"], 3, 0⟩

def c1_workflow : Workflow :=
  ⟨["check_time_availability", "create_calendar_event"], some "HIGH", some 7,
   some true,
   [("check_time_availability", "create_calendar_event", "availability result")]⟩

def c1_oracles : MinerOracles :=
  { segModel := fun _ => Except.ok (StructuredOut.parsed ⟨[c1_segment]⟩)
    analyzeResp := fun _ => Except.ok (StructuredOut.parsed c1_workflow)
    coverResp := fun _ =>
      Except.ok (StructuredOut.parsed ⟨true, "No existing tool covers this"⟩)
    createResp := fun _ => Except.ok (StructuredOut.parsed c1_badTool)
    saveWrite := fun _ => Except.ok () }

/-- A transcript of exactly one user turn and one assistant turn. -/
def c2_thread : List TurnRec :=
  [TurnRec.user_input 1 "what did bob email me",
   TurnRec.assistant_response 2 "Bob emailed about the offsite."]

/-- A model-returned segment with the literal 1-user-turn /
1-assistant-turn shape, flagged `is_complex_workflow=true`. -/
def c2_seg11 : Segment :=
  ⟨1, 1, 2, "Check recent email", some true, some 1, some 1⟩

def c2_tool : ToolDefRec :=
  ⟨"context_gathering_assistant", "Gather conversational context",
   ["email", "context"], "You gather context.", ["search_emails"], 2, 6⟩

def c2_workflow : Workflow :=
  ⟨["search_emails"], some "MEDIUM", some 6, some false, []⟩

def c2_oracles : MinerOracles :=
  { segModel := fun _ => Except.ok (StructuredOut.parsed ⟨[c2_seg11]⟩)
    analyzeResp := fun _ => Except.ok (StructuredOut.parsed c2_workflow)
    coverResp := fun _ =>
      Except.ok (StructuredOut.parsed ⟨true, "No coverage"⟩)
    createResp := fun _ => Except.ok (StructuredOut.parsed c2_tool)
    saveWrite := fun _ => Except.ok () }

def c3_thread : List TurnRec := [TurnRec.user_input 1 "hello"]

/-- A mining pass whose segmentation model call raises. -/
def c3_oracles : MinerOracles :=
  { segModel := fun _ => Except.error "RateLimitError"
    analyzeResp := fun _ => Except.ok StructuredOut.noCalls
    coverResp := fun _ => Except.ok StructuredOut.noCalls
    createResp := fun _ => Except.ok StructuredOut.noCalls
    saveWrite := fun _ => Except.ok () }

/-- A trivial workflow: complexity 1, LOW potential, no context
dependencies, no user guidance. -/
def c7_workflow : Workflow :=
  ⟨["search_emails"], some "LOW", some 1, some false, []⟩

/-- An existing learned tool, for exercising the nonempty-store path. -/
def c7_existing : ToolDefRec :=
  ⟨"smart_workflow_optimizer", "Streamline information gathering",
   ["gather"], "You streamline.", ["search_emails", "check_time_availability"],
   2, 6⟩

/-- A coverage verdict saying a new tool IS needed, as the model might
return even when an identical tool exists. -/
def c7_dupVerdict : EvalOut := ⟨true, "model judged a new tool necessary"⟩

/-- A candidate workflow whose tool list is identical to
`c7_existing`'s stored `tool_sequence`. -/
def c7_dupWorkflow : Workflow :=
  ⟨["search_emails", "check_time_availability"], some "HIGH", some 8,
   some true, []⟩

def c8_conv : List ChatMsg :=
  [ChatMsg.user "Error: my deploy script fails, help me debug"]

def c8w_conv : List ChatMsg :=
  [ChatMsg.tool "search_emails" "call_9" "Error: boom"]

def c9_thread : List TurnRec :=
  [TurnRec.user_input 1 "hello", TurnRec.assistant_response 2 "hi"]

/-- A model-returned segment whose start turn exceeds its end turn. -/
def c9_badSegment : Segment := ⟨1, 5, 2, "inverted range", some true, none, none⟩

/-- A one-entry learned-tool store. -/
def c6_tool : ToolDefRec :=
  ⟨"context_tool", "Aggregate context for a request", ["context"],
   "You aggregate context.", ["search_emails", "search_calendar_events"], 2, 6⟩

def c6_store : Store := [("context_tool", c6_tool)]

/-
Helper lemmas (shared across claims).
-/

theorem dropNulls_no_null (a : List (String × Value)) :
    ∀ p ∈ dropNulls a, p.2 ≠ Value.null := by
  intro p hp hnull
  have hmem := List.of_mem_filter hp
  rw [hnull] at hmem
  simp at hmem

theorem execute_tool_call_agree (impl impl2 : ToolImpl)
    (hagree : ∀ n a, (∀ p ∈ a, p.2 ≠ Value.null) → impl n a = impl2 n a)
    (id name : String) (args : List (String × Value)) :
    execute_tool_call impl id name args = execute_tool_call impl2 id name args := by
  unfold execute_tool_call
  rw [hagree name (dropNulls args) (dropNulls_no_null args)]

theorem execute_tools_agree (impl impl2 : ToolImpl)
    (hagree : ∀ n a, (∀ p ∈ a, p.2 ≠ Value.null) → impl n a = impl2 n a) :
    ∀ calls, execute_tools impl calls = execute_tools impl2 calls := by
  intro calls
  induction calls with
  | nil => rfl
  | cons tc rest ih =>
      cases h : tc.argsParse with
      | error e => simp only [execute_tools, h]
      | ok args =>
          simp only [execute_tools, h]
          rw [ih, execute_tool_call_agree impl impl2 hagree]

theorem execute_tools_dispatchable (impl : ToolImpl) :
    ∀ calls : List RawToolCall,
      (∀ tc ∈ calls, ∃ a, tc.argsParse = Except.ok a) →
      execute_tools impl calls =
        Except.ok ((dispatchable calls).map
            (fun p => (execute_tool_call impl p.1.id p.1.name p.2).1),
          (dispatchable calls).map
            (fun p => (execute_tool_call impl p.1.id p.1.name p.2).2)) := by
  intro calls
  induction calls with
  | nil => intro _; rfl
  | cons tc rest ih =>
      intro hparse
      obtain ⟨a, ha⟩ := hparse tc (List.mem_cons_self tc rest)
      have hrest := ih (fun x hx => hparse x (List.mem_cons_of_mem tc hx))
      simp only [execute_tools, dispatchable, List.filterMap_cons, ha]
      by_cases htr : strStartsWith tc.name "trigger_"
      · simp only [htr, if_true]
        rw [hrest]
        rfl
      · simp only [htr, if_false]
        rw [hrest]
        rfl

/-- C6 (confirmed): for every state of the learned-tool store,
`get_combined_tools()` returns base-count + learned-count entries, and
every entry beyond the base tools is named `"trigger_" ++ k` for a key
`k` of the store. -/
theorem C6_combined_tools_shape (store : Store) :
    (get_combined_tools store).length = base_tools.length + store.length ∧
    ∀ f ∈ (get_combined_tools store).drop base_tools.length,
      ∃ k td, (k, td) ∈ store ∧ f.name = "trigger_" ++ k := by
  constructor
  · simp [get_combined_tools, create_intelligent_tool_functions]
  · intro f hf
    rw [get_combined_tools, List.drop_left] at hf
    simp only [create_intelligent_tool_functions, List.mem_map] at hf
    obtain ⟨p, hmem, hname⟩ := hf
    exact ⟨p.1, p.2, hmem, by rw [← hname]⟩

/-- C5 (amended; original refuted by C5_counterexample): for every batch
whose argument strings all parse as JSON, `execute_tools` returns one
result per non-trigger call in input order, each computed independently
by the per-call body `execute_tool_call`; its behavior depends on the
data accessors only at null-free argument bags (nulls are dropped before
dispatch); an unknown tool name yields that call's structured
"Tool not found" error, and a raising accessor yields that call's
structured execution-error result, without aborting the siblings. -/
theorem C5_batch_isolation (impl impl2 : ToolImpl) (calls : List RawToolCall)
    (hparse : ∀ tc ∈ calls, ∃ a, tc.argsParse = Except.ok a)
    (hagree : ∀ n a, (∀ p ∈ a, p.2 ≠ Value.null) → impl n a = impl2 n a) :
    execute_tools impl calls =
      Except.ok ((dispatchable calls).map
          (fun p => (execute_tool_call impl p.1.id p.1.name p.2).1),
        (dispatchable calls).map
          (fun p => (execute_tool_call impl p.1.id p.1.name p.2).2)) ∧
    execute_tools impl calls = execute_tools impl2 calls ∧
    (∀ id n a, toolMapNames.contains n = false →
      (execute_tool_call impl id n a).1.content =
        "Error: Tool " ++ n ++ " not found" ∧
      (execute_tool_call impl id n a).2.success = false) ∧
    (∀ id n a e, toolMapNames.contains n = true →
      impl n (dropNulls a) = Except.error e →
      (execute_tool_call impl id n a).1.content =
        "Error executing " ++ n ++ ": " ++ e ∧
      (execute_tool_call impl id n a).2.success = false) := by
  refine ⟨execute_tools_dispatchable impl calls hparse,
          execute_tools_agree impl impl2 hagree calls, ?_, ?_⟩
  · intro id n a hn
    unfold execute_tool_call
    rw [hn]
    simp
  · intro id n a e hn he
    unfold execute_tool_call
    rw [hn, he]
    simp

/-- C5 witness: spec scenario D.  The null `area` argument is dropped
before dispatch, the first call succeeds, the second yields a per-call
"Tool not found" error, and the batch returns normally. -/
theorem C5_batch_isolation_witness :
    (∀ tc ∈ scenD_calls, ∃ a, tc.argsParse = Except.ok a) ∧
    execute_tools scenD_impl scenD_calls =
      Except.ok
        ([⟨"call_1", "search_restaurants", "restaurant records payload"⟩,
          ⟨"call_2", "unknown_tool", "Error: Tool unknown_tool not found"⟩],
         [⟨"search_restaurants", [("cuisine", Value.str "italian")], true, none⟩,
          ⟨"unknown_tool", [], false, some "Tool not found"⟩]) := by
  have hp : ∀ tc ∈ scenD_calls, ∃ a, tc.argsParse = Except.ok a := by
    intro tc htc
    simp only [scenD_calls, List.mem_cons, List.mem_singleton] at htc
    rcases htc with h | h | h
    · exact ⟨_, by rw [h]⟩
    · exact ⟨_, by rw [h]⟩
    · cases h
  refine ⟨hp, ?_⟩
  have h := (C5_batch_isolation scenD_impl scenD_impl scenD_calls hp
    (fun _ _ _ => rfl)).1
  rw [h]
  decide

/-- C5 counterexample: the source runs `json.loads` on each call's
argument string before the per-call `try` begins
(src/amans_cli_orion.py line 333), so one call whose arguments fail to
parse raises out of `execute_tools` and aborts the whole batch — the
sibling `search_restaurants` call gets no result.  This refutes
"never aborts the batch or raises to the caller" as stated for every
batch of requested tool calls. -/
theorem C5_counterexample :
    execute_tools scenD_impl c5x_calls =
      Except.error "Unterminated string starting at char 7" := by
  decide

/-- Positivity of `max_internal_turns` from its `toNat` being a
successor. -/
theorem maxTurns_pos_of_toNat_succ (N : Int) (k : Nat)
    (h : N.toNat = k + 1) : ¬ N ≤ 0 := by
  intro hle
  rw [Int.toNat_of_nonpos hle] at h
  cases h


/-- Both branches of the sub-loop body return: one iteration with any
remaining fuel settles the run.  Stated over a generic conversation
seed. -/
theorem execute_tool_rounds_succ_facts
    (tm : List LoopMsg → Except String ModelOut)
    (fm : List LoopMsg → Except String String) (impl : ToolImpl)
    (fuel : Nat) (conv : List LoopMsg) :
    (execute_tool_rounds tm fm impl (fuel + 1) conv 0 0).toolModelCalls = 1 ∧
    (execute_tool_rounds tm fm impl (fuel + 1) conv 0 0).toolRounds ≤ 1 ∧
    (execute_tool_rounds tm fm impl (fuel + 1) conv 0 0).outcome ≠
      Outcome.exhausted ∧
    (∀ am, tm conv = Except.ok am → am.toolCalls = [] →
      (execute_tool_rounds tm fm impl (fuel + 1) conv 0 0).outcome =
        Outcome.responded am.content) ∧
    (∀ am results s, tm conv = Except.ok am → am.toolCalls ≠ [] →
      run_tool_batch impl am.toolCalls = Except.ok results →
      fm ((conv ++ [LoopMsg.assistant am.content am.toolCalls] ++ results) ++
        [LoopMsg.system finalInstruction]) = Except.ok s →
      (execute_tool_rounds tm fm impl (fuel + 1) conv 0 0).outcome =
        Outcome.responded s) := by
  cases hm : tm conv with
  | error e =>
      have hv : execute_tool_rounds tm fm impl (fuel + 1) conv 0 0 =
          ⟨Outcome.failed e, 1, 0⟩ := by
        simp [execute_tool_rounds, hm]
      rw [hv]
      refine ⟨rfl, Nat.zero_le 1, by simp, ?_, ?_⟩
      · intro am h1 _
        cases h1
      · intro am results s h1 _ _ _
        cases h1
  | ok am =>
      by_cases hb : am.toolCalls.isEmpty
      · have hv : execute_tool_rounds tm fm impl (fuel + 1) conv 0 0 =
            ⟨Outcome.responded am.content, 1, 0⟩ := by
          simp [execute_tool_rounds, hm, hb]
        rw [hv]
        refine ⟨rfl, Nat.zero_le 1, by simp, ?_, ?_⟩
        · intro am2 h1 _
          injection h1 with h
          rw [h]
        · intro am2 results s h1 h2 _ _
          injection h1 with h
          rw [← h] at h2
          exact absurd (List.isEmpty_iff.mp hb) h2
      · rw [Bool.not_eq_true] at hb
        cases hr : run_tool_batch impl am.toolCalls with
        | error e =>
            have hv : execute_tool_rounds tm fm impl (fuel + 1) conv 0 0 =
                ⟨Outcome.failed e, 1, 1⟩ := by
              simp [execute_tool_rounds, hm, hb, hr]
            rw [hv]
            refine ⟨rfl, Nat.le_refl 1, by simp, ?_, ?_⟩
            · intro am2 h1 h2
              injection h1 with h
              rw [h] at hb
              rw [List.isEmpty_iff.mpr h2] at hb
              cases hb
            · intro am2 results s h1 _ h3 _
              injection h1 with h
              rw [← h, hr] at h3
              cases h3
        | ok results =>
            cases hf : fm ((conv ++ [LoopMsg.assistant am.content am.toolCalls]
                ++ results) ++ [LoopMsg.system finalInstruction]) with
            | error e =>
                have hv : execute_tool_rounds tm fm impl (fuel + 1) conv 0 0 =
                    ⟨Outcome.failed e, 1, 1⟩ := by
                  simp only [List.append_assoc, List.singleton_append, List.cons_append, List.nil_append] at hf
                  simp [execute_tool_rounds, hm, hb, hr, hf]
                rw [hv]
                refine ⟨rfl, Nat.le_refl 1, by simp, ?_, ?_⟩
                · intro am2 h1 h2
                  injection h1 with h
                  rw [h] at hb
                  rw [List.isEmpty_iff.mpr h2] at hb
                  cases hb
                · intro am2 results2 s h1 _ h3 h4
                  injection h1 with h
                  rw [← h] at h3 h4
                  rw [hr] at h3
                  injection h3 with h3e
                  rw [← h3e] at h4
                  rw [hf] at h4
                  cases h4
            | ok s0 =>
                have hv : execute_tool_rounds tm fm impl (fuel + 1) conv 0 0 =
                    ⟨Outcome.responded s0, 1, 1⟩ := by
                  simp only [List.append_assoc, List.singleton_append, List.cons_append, List.nil_append] at hf
                  simp [execute_tool_rounds, hm, hb, hr, hf]
                rw [hv]
                refine ⟨rfl, Nat.le_refl 1, by simp, ?_, ?_⟩
                · intro am2 h1 h2
                  injection h1 with h
                  rw [h] at hb
                  rw [List.isEmpty_iff.mpr h2] at hb
                  cases hb
                · intro am2 results2 s h1 _ h3 h4
                  injection h1 with h
                  rw [← h] at h3 h4
                  rw [hr] at h3
                  injection h3 with h3e
                  rw [← h3e] at h4
                  rw [hf] at h4
                  injection h4 with h4e
                  rw [h4e]

/-- C4 (amended; original refuted by C4_counterexample): for every
learned tool and any collaborator behavior, the sub-loop issues at most
`max_internal_turns` — in fact at most one — tool-call-permitting model
invocations, and it returns via the exhaustion-sentinel path exactly
when `max_internal_turns ≤ 0`; so a model that never stops requesting
tools receives the post-batch final answer, never the sentinel, whenever
the bound is at least 1. -/
theorem C4_at_most_one_round (td : ToolDefRec)
    (toolModel : List LoopMsg → Except String ModelOut)
    (finalModel : List LoopMsg → Except String String) (impl : ToolImpl)
    (msg : String) :
    (run_intelligent_tool td toolModel finalModel impl msg).toolModelCalls ≤
      td.max_internal_turns.toNat ∧
    (run_intelligent_tool td toolModel finalModel impl msg).toolModelCalls ≤ 1 ∧
    ((run_intelligent_tool td toolModel finalModel impl msg).outcome =
      Outcome.exhausted ↔ td.max_internal_turns ≤ 0) := by
  unfold run_intelligent_tool
  cases hN : td.max_internal_turns.toNat with
  | zero =>
      simp only [execute_tool_rounds]
      exact ⟨Nat.zero_le _, Nat.zero_le 1, by simp [Int.toNat_eq_zero.mp hN]⟩
  | succ k =>
      have hpos := maxTurns_pos_of_toNat_succ td.max_internal_turns k hN
      obtain ⟨h1, _, h3, _, _⟩ := execute_tool_rounds_succ_facts toolModel
        finalModel impl k
        [LoopMsg.system td.optimized_system_prompt, LoopMsg.user msg]
      refine ⟨?_, ?_, iff_of_false h3 hpos⟩
      · rw [h1]; omega
      · rw [h1]

/-- C4 counterexample: with `max_internal_turns = 1` and a model that
never stops requesting tools, the sub-loop does NOT return the
exhaustion sentinel: it executes the single batch and returns the final
model response.  This refutes "issues at most N tool-call-permitting
model invocations and then returns the fixed exhaustion sentinel
message, for any model behavior that never stops requesting tools". -/
theorem C4_counterexample :
    run_intelligent_tool c4_tool c4_toolModel c4_finalModel c4_impl
        "whats the status" =
      ⟨Outcome.responded "Summary of the gathered email data.", 1, 1⟩ ∧
    (run_intelligent_tool c4_tool c4_toolModel c4_finalModel c4_impl
        "whats the status").outcome ≠ Outcome.exhausted := by
  refine ⟨by decide, by decide⟩

/-- C10 (confirmed): every iteration of the internal turn loop returns
before a second iteration can begin — at most one tool batch is ever
started; the exhaustion sentinel is returned exactly when
`max_internal_turns ≤ 0`; and when the bound is positive, a tool-free
model reply is returned directly while a tool-requesting reply leads to
one batch execution followed by the next (tool-free) model call, whose
content is returned. -/
theorem C10_loop_returns_first_iteration (td : ToolDefRec)
    (toolModel : List LoopMsg → Except String ModelOut)
    (finalModel : List LoopMsg → Except String String) (impl : ToolImpl)
    (msg : String) :
    (run_intelligent_tool td toolModel finalModel impl msg).toolRounds ≤ 1 ∧
    ((run_intelligent_tool td toolModel finalModel impl msg).outcome =
      Outcome.exhausted ↔ td.max_internal_turns ≤ 0) ∧
    (∀ am, 0 < td.max_internal_turns →
      toolModel [LoopMsg.system td.optimized_system_prompt,
        LoopMsg.user msg] = Except.ok am →
      am.toolCalls = [] →
      (run_intelligent_tool td toolModel finalModel impl msg).outcome =
        Outcome.responded am.content) ∧
    (∀ am results s, 0 < td.max_internal_turns →
      toolModel [LoopMsg.system td.optimized_system_prompt,
        LoopMsg.user msg] = Except.ok am →
      am.toolCalls ≠ [] →
      run_tool_batch impl am.toolCalls = Except.ok results →
      finalModel (([LoopMsg.system td.optimized_system_prompt,
        LoopMsg.user msg] ++ [LoopMsg.assistant am.content am.toolCalls] ++
        results) ++ [LoopMsg.system finalInstruction]) = Except.ok s →
      (run_intelligent_tool td toolModel finalModel impl msg).outcome =
        Outcome.responded s) := by
  unfold run_intelligent_tool
  cases hN : td.max_internal_turns.toNat with
  | zero =>
      have hle : td.max_internal_turns ≤ 0 := Int.toNat_eq_zero.mp hN
      simp only [execute_tool_rounds]
      refine ⟨Nat.zero_le 1, by simp [hle], ?_, ?_⟩
      · intro am hpos _ _
        omega
      · intro am results s hpos _ _ _ _
        omega
  | succ k =>
      have hpos := maxTurns_pos_of_toNat_succ td.max_internal_turns k hN
      obtain ⟨_, h2, h3, h4, h5⟩ := execute_tool_rounds_succ_facts toolModel
        finalModel impl k
        [LoopMsg.system td.optimized_system_prompt, LoopMsg.user msg]
      refine ⟨h2, iff_of_false h3 hpos, ?_, ?_⟩
      · intro am _ hm he
        exact h4 am hm he
      · intro am results s _ hm hne hr hf
        exact h5 am results s hm hne hr hf

/-- C10 witness: a tool with bound 2 and a model that answers directly
gets its content returned by the first iteration. -/
theorem C10_loop_returns_first_iteration_witness :
    (0 : Int) < c10_tool.max_internal_turns ∧
    (run_intelligent_tool c10_tool c10_toolModel c10_finalModel c10_impl
        "look into this").outcome =
      Outcome.responded "Here is the direct answer." := by
  refine ⟨by decide, ?_⟩
  exact (C10_loop_returns_first_iteration c10_tool c10_toolModel c10_finalModel
    c10_impl "look into this").2.2.1 ⟨"Here is the direct answer.", []⟩
    (by decide) rfl rfl

/-- C1 (code bug): the synthesis constraints are enforced only by prompt
text; `create_optimized_tool` performs no post-hoc validation and
`process_thread` persists any candidate with a truthy `tool_name`.
Evaluated on spec scenario A's transcript with a model that returns a
candidate whose `tool_sequence` contains `create_calendar_event`: the
pass persists it into the learned-tool store. -/
theorem C1_mutating_tool_persisted :
    process_thread [] (Except.ok c1_thread) c1_oracles =
      Except.ok [("intelligent_scheduling_assistant",
        { c1_badTool with source_workflow_complexity := 7 })] ∧
    "create_calendar_event" ∈
      ({ c1_badTool with source_workflow_complexity := 7 }).tool_sequence := by
  refine ⟨by decide, by decide⟩

/-- C2 counterexample: a model-returned segment with exactly one user
turn and one assistant turn but `is_complex_workflow=true` is NOT
excluded: it is a synthesis candidate (line 522 filters only on
`is_complex_workflow`), and a full pass even persists a tool mined from
it.  This refutes the 1-user-turn/1-assistant-turn exclusion. -/
theorem C2_counterexample :
    filtered_segments [c2_seg11] = [c2_seg11] ∧
    c2_seg11.is_complex_workflow = some true ∧
    c2_seg11.user_turns_in_segment = some 1 ∧
    c2_seg11.assistant_turns_in_segment = some 1 ∧
    process_thread [] (Except.ok c2_thread) c2_oracles =
      Except.ok [("context_gathering_assistant",
        { c2_tool with source_workflow_complexity := 6 })] := by
  refine ⟨by decide, rfl, rfl, rfl, by decide⟩

/-- C2 (amended; original refuted by C2_counterexample): the synthesis
candidates of `process_thread` are exactly the returned segments whose
`is_complex_workflow` field decodes to true; segments whose flag is
false or absent are excluded, but no 1-user-turn/1-assistant-turn
discard is performed in code (it is only requested of the model in the
segmentation prompt). -/
theorem C2_candidates_exactly_complex (segments : List Segment) (s : Segment) :
    s ∈ filtered_segments segments ↔
      s ∈ segments ∧ s.is_complex_workflow = some true := by
  simp only [filtered_segments, List.mem_filter]
  constructor
  · rintro ⟨h1, h2⟩
    refine ⟨h1, ?_⟩
    cases hoc : s.is_complex_workflow with
    | none => rw [hoc] at h2; simp at h2
    | some b =>
        rw [hoc] at h2
        cases b
        · simp at h2
        · rfl
  · rintro ⟨h1, h2⟩
    exact ⟨h1, by rw [h2]; rfl⟩

/-- C3 counterexample: a raising segmentation model call propagates out
of `process_thread` — the pass does not complete and does not degrade to
a no-op; this refutes "no exception from a collaborator escapes the
miner's public operations". -/
theorem C3_counterexample :
    process_thread [] (Except.ok c3_thread) c3_oracles =
      Except.error "RateLimitError" := by
  decide

/-- C3 (amended; original refuted by C3_counterexample): malformed
structured output (undecodable tool-call arguments, or a reply without
tool calls) makes `segment_conversation` return the empty list, but a
raising model call propagates out of `segment_conversation`, and a
raising collaborator (file read included) propagates out of
`process_thread`. -/
theorem C3_malformed_degrades_raises_propagate :
    (∀ thread model, model (turnsText thread) = Except.ok StructuredOut.badJson →
      segment_conversation thread model = Except.ok []) ∧
    (∀ thread model, model (turnsText thread) = Except.ok StructuredOut.noCalls →
      segment_conversation thread model = Except.ok []) ∧
    (∀ thread model e, model (turnsText thread) = Except.error e →
      segment_conversation thread model = Except.error e) ∧
    (∀ initStore o e,
      process_thread initStore (Except.error e) o = Except.error e) := by
  refine ⟨?_, ?_, ?_, ?_⟩
  · intro thread model h
    unfold segment_conversation
    rw [h]
  · intro thread model h
    unfold segment_conversation
    rw [h]
  · intro thread model e h
    unfold segment_conversation
    rw [h]
  · intro initStore o e
    rfl

/-- C3 witness: a concrete model whose structured output is undecodable
makes the pass a no-op segmentation. -/
theorem C3_malformed_witness :
    (fun _ : String =>
      (Except.ok StructuredOut.badJson : Except String (StructuredOut SegArgs)))
      (turnsText c3_thread) = Except.ok StructuredOut.badJson ∧
    segment_conversation c3_thread
      (fun _ => Except.ok StructuredOut.badJson) = Except.ok [] := by
  refine ⟨rfl, ?_⟩
  exact C3_malformed_degrades_raises_propagate.1 c3_thread
    (fun _ => Except.ok StructuredOut.badJson) rfl

/-- C7 counterexample: with an empty learned-tool store,
`check_existing_tool_coverage` returns `new_tool_needed=True` before any
model call, for a workflow of complexity 1, LOW potential, no context
dependencies and no user guidance — refuting "new_tool_needed=True only
if complexity ≥ 6 and potential ∈ {MEDIUM, HIGH} and (context
dependencies exist or user guidance was required)". -/
theorem C7_counterexample :
    check_existing_tool_coverage [] c7_workflow (Except.error "unconsulted") =
      Except.ok ⟨true, "No existing tools available"⟩ ∧
    c7_workflow.workflow_complexity_score = some 1 ∧
    c7_workflow.optimization_potential = some "LOW" ∧
    c7_workflow.context_dependencies = [] ∧
    c7_workflow.user_had_to_guide_process = some false := by
  refine ⟨rfl, rfl, rfl, rfl, rfl⟩

/-- C7 (amended; original refuted by C7_counterexample): the decision
rule is not evaluated in code.  With an empty store the function returns
`new_tool_needed=True` unconditionally; with a nonempty store it returns
the model's decoded verdict verbatim (so a store entry with an identical
tool sequence forces nothing — demonstrated by the last conjunct),
returns the `"Analysis failed"` refusal on malformed output, and lets a
raising model call propagate.  The conservative criteria exist only in
the prompt text. -/
theorem C7_coverage_characterization :
    (∀ wf resp, check_existing_tool_coverage [] wf resp =
      Except.ok ⟨true, "No existing tools available"⟩) ∧
    (∀ k td rest wf ev, check_existing_tool_coverage ((k, td) :: rest) wf
      (Except.ok (StructuredOut.parsed ev)) = Except.ok ev) ∧
    (∀ k td rest wf, check_existing_tool_coverage ((k, td) :: rest) wf
      (Except.ok StructuredOut.badJson) =
      Except.ok ⟨false, "Analysis failed"⟩) ∧
    (∀ k td rest wf, check_existing_tool_coverage ((k, td) :: rest) wf
      (Except.ok StructuredOut.noCalls) =
      Except.ok ⟨false, "Analysis failed"⟩) ∧
    (∀ k td rest wf e, check_existing_tool_coverage ((k, td) :: rest) wf
      (Except.error e) = Except.error e) ∧
    (check_existing_tool_coverage [("smart_workflow_optimizer", c7_existing)]
        c7_dupWorkflow (Except.ok (StructuredOut.parsed c7_dupVerdict)) =
      Except.ok c7_dupVerdict ∧
      c7_dupVerdict.new_tool_needed = true ∧
      c7_dupWorkflow.tools_used_list = c7_existing.tool_sequence) := by
  refine ⟨fun _ _ => rfl, fun _ _ _ _ _ => rfl, fun _ _ _ _ => rfl,
    fun _ _ _ _ => rfl, fun _ _ _ _ _ => rfl, rfl, rfl, rfl⟩

/-- C9 counterexample: `segment_conversation` returns the model's
decoded segments verbatim, with no bounds validation: a segment with
`start_turn > end_turn` is returned as is, refuting "the segment's start
turn is ≤ its end turn and both lie within the thread's turn range". -/
theorem C9_counterexample :
    segment_conversation c9_thread
        (fun _ => Except.ok (StructuredOut.parsed ⟨[c9_badSegment]⟩)) =
      Except.ok [c9_badSegment] ∧
    c9_badSegment.turn_id_for_split_start >
      c9_badSegment.turn_id_for_split_end := by
  refine ⟨rfl, by decide⟩

/-- C9 (amended; original refuted by C9_counterexample): only decode
failures fail closed.  `segment_conversation` returns the empty list
when the model's structured output is undecodable or carries no tool
call, and otherwise returns the model's segment list verbatim — so the
range invariant holds only when the model's output already satisfies
it. -/
theorem C9_segments_passed_through (thread : List TurnRec)
    (model : String → Except String (StructuredOut SegArgs)) :
    (model (turnsText thread) = Except.ok StructuredOut.badJson →
      segment_conversation thread model = Except.ok []) ∧
    (model (turnsText thread) = Except.ok StructuredOut.noCalls →
      segment_conversation thread model = Except.ok []) ∧
    (∀ a, model (turnsText thread) = Except.ok (StructuredOut.parsed a) →
      segment_conversation thread model = Except.ok a.segments) := by
  refine ⟨?_, ?_, ?_⟩
  · intro h
    unfold segment_conversation
    rw [h]
  · intro h
    unfold segment_conversation
    rw [h]
  · intro a h
    unfold segment_conversation
    rw [h]

/-- C9 witness: a decoded reply is passed through verbatim, including an
inverted-range segment. -/
theorem C9_segments_passed_through_witness :
    (fun _ : String => (Except.ok (StructuredOut.parsed ⟨[c9_badSegment]⟩) :
        Except String (StructuredOut SegArgs))) (turnsText c9_thread) =
      Except.ok (StructuredOut.parsed ⟨[c9_badSegment]⟩) ∧
    segment_conversation c9_thread
        (fun _ => Except.ok (StructuredOut.parsed ⟨[c9_badSegment]⟩)) =
      Except.ok (⟨[c9_badSegment]⟩ : SegArgs).segments := by
  refine ⟨rfl, ?_⟩
  exact (C9_segments_passed_through c9_thread
    (fun _ => Except.ok (StructuredOut.parsed ⟨[c9_badSegment]⟩))).2.2
    ⟨[c9_badSegment]⟩ rfl

/-- Every `tool_result` turn emitted by the turn-building loop carries
`success = not content.startswith("Error")`, whatever the starting turn
number. -/
theorem buildTurns_tool_result_success (conversation : List ChatMsg) :
    ∀ n0 n nm cid c s, TurnRec.tool_result n nm cid c s ∈
      buildTurns conversation n0 → s = !(strStartsWith c "Error") := by
  induction conversation with
  | nil =>
      intro n0 n nm cid c s h
      cases h
  | cons m rest ih =>
      intro n0 n nm cid c s h
      cases m with
      | user c2 =>
          rw [buildTurns] at h
          rcases List.mem_cons.mp h with h1 | h1
          · cases h1
          · exact ih (n0 + 1) n nm cid c s h1
      | assistantObj c2 tcs =>
          rw [buildTurns] at h
          by_cases hb : tcs.isEmpty = true
          · rw [if_pos hb] at h
            rcases List.mem_cons.mp h with h1 | h1
            · cases h1
            · exact ih (n0 + 1) n nm cid c s h1
          · rw [if_neg hb] at h
            rcases List.mem_cons.mp h with h1 | h1
            · cases h1
            · exact ih (n0 + 1) n nm cid c s h1
      | assistantDict c2 =>
          rw [buildTurns] at h
          rcases List.mem_cons.mp h with h1 | h1
          · cases h1
          · exact ih (n0 + 1) n nm cid c s h1
      | tool nm2 cid2 c2 =>
          rw [buildTurns] at h
          rcases List.mem_cons.mp h with h1 | h1
          · injection h1 with e1 e2 e3 e4 e5
            rw [← e4] at e5
            exact e5
          · exact ih (n0 + 1) n nm cid c s h1

/-- C8 (amended; original refuted by C8_counterexample): each
`tool_result` turn's `success` equals "content does not start with
Error" — that part of the claim holds — but the metadata `success` flag
is derived from the content of EVERY turn (line 520 iterates all turns):
it is true exactly when no turn of any type has content starting with
"Error", not merely when no tool output does. -/
theorem C8_success_derivation (conversation : List ChatMsg) :
    (∀ n nm cid c s, TurnRec.tool_result n nm cid c s ∈
      (save_thread conversation).turns → s = !(strStartsWith c "Error")) ∧
    ((save_thread conversation).metadata.success = true ↔
      ∀ t ∈ (save_thread conversation).turns,
        strStartsWith t.content "Error" = false) := by
  constructor
  · intro n nm cid c s h
    exact buildTurns_tool_result_success conversation 1 n nm cid c s h
  · have hs : (save_thread conversation).metadata.success =
        !((buildTurns conversation 1).any
          fun t => strStartsWith t.content "Error") := rfl
    have ht : (save_thread conversation).turns = buildTurns conversation 1 := rfl
    rw [hs, ht, Bool.not_eq_true', List.any_eq_false]
    constructor
    · intro h t htmem
      have := h t htmem
      simpa using this
    · intro h t htmem
      simp [h t htmem]

/-- C8 witness: a tool message whose content starts with "Error" is
serialized with `success = false`. -/
theorem C8_success_derivation_witness :
    TurnRec.tool_result 1 "search_emails" "call_9" "Error: boom" false ∈
      (save_thread c8w_conv).turns ∧
    false = !(strStartsWith "Error: boom" "Error") := by
  have hmem : TurnRec.tool_result 1 "search_emails" "call_9" "Error: boom"
      false ∈ (save_thread c8w_conv).turns := by decide
  exact ⟨hmem, (C8_success_derivation c8w_conv).1 1 "search_emails" "call_9"
    "Error: boom" false hmem⟩

/-- C8 counterexample: a conversation whose only message is a USER turn
starting with "Error" yields `metadata.success = false` although the
thread contains no tool-result turn at all — so the overall flag is not
"true iff no tool output begins with Error". -/
theorem C8_counterexample :
    (save_thread c8_conv).turns.filter TurnRec.isToolResult = [] ∧
    (save_thread c8_conv).metadata.success = false := by
  refine ⟨by decide, by decide⟩

/-- C2 witness: the candidate characterization at a concrete segment
list. -/
theorem C2_candidates_exactly_complex_witness :
    c2_seg11 ∈ [c2_seg11] ∧ c2_seg11.is_complex_workflow = some true ∧
    c2_seg11 ∈ filtered_segments [c2_seg11] := by
  refine ⟨List.mem_singleton.mpr rfl, rfl, ?_⟩
  exact (C2_candidates_exactly_complex [c2_seg11] c2_seg11).mpr
    ⟨List.mem_singleton.mpr rfl, rfl⟩

/-- C6 witness: the shape theorem evaluated on a one-entry store. -/
theorem C6_combined_tools_shape_witness :
    (get_combined_tools c6_store).length = base_tools.length + c6_store.length ∧
    (⟨"trigger_" ++ "context_tool"⟩ : FunctionSchema) ∈
      (get_combined_tools c6_store).drop base_tools.length ∧
    ∃ k td, (k, td) ∈ c6_store ∧
      (⟨"trigger_" ++ "context_tool"⟩ : FunctionSchema).name = "trigger_" ++ k := by
  refine ⟨(C6_combined_tools_shape c6_store).1, by decide, ?_⟩
  exact (C6_combined_tools_shape c6_store).2 _ (by decide)
